import Mathlib

/-!
Shallow embedding of the core of the bg-helper repository
(src/bg_helper/__init__.py): the result recorder `call_func`, the helper
`get_logger_filenames`, the shell runner `run`, and the background launcher
`SimpleBackgroundTask`.

Modelling conventions:
- Python values that can appear as call arguments or return values are the
  inductive `Value` (ints, strings, booleans, None, logger objects).
- A unit of work (Python callable) is a `Func`: its introspection attributes
  plus a pure `impl` mapping positional and keyword arguments to either a
  returned `Value` or a raised exception (`PyExc`).  `duration` models the
  amount of clock time the invocation consumes, so that the moment at which
  an exception is observed can be distinguished from the moment `call_func`
  was entered.
- The ambient process state (`Env`) carries the fully qualified host name
  returned by socket.getfqdn, the working directory used by os.path.abspath
  at import time, and a `writable` predicate modelling whether opening a
  file for append and writing to it succeeds.
- Side effects are collected in `Effects`: lines printed to stdout, messages
  emitted at error level on the resolved logger, and (filename, text) pairs
  appended to files.  `call_func` returns a `CallResult`: either the info
  record (normal return) or a `PyExc` that propagated out of it, together
  with the effects that happened before it returned or raised.
-/

namespace BgHelper

/-- Python exception as observed by the except-block of call_func:
the repr of its type, the repr of its value, and the text produced by
traceback.format_exc. -/
structure PyExc where
  etype : String
  evalue : String
  tbText : String
deriving DecidableEq, Repr

/-- Logging handler: `baseFilename?` is some path when the handler has a
baseFilename attribute (a file handler), none otherwise. -/
structure Handler where
  baseFilename? : Option String
deriving DecidableEq, Repr

/-- Logger object: its list of handlers, in order. -/
structure Logger where
  handlers : List Handler
deriving DecidableEq, Repr

/-- Python values that flow through the framework as arguments and return
values.  A logger object may be passed as the value of the logger keyword. -/
inductive Value where
  | int : Int → Value
  | str : String → Value
  | bool : Bool → Value
  | none : Value
  | logger : Logger → Value
deriving DecidableEq, Repr

/-- Python truthiness of a `Value` (used by the source for the popped
verbose keyword and for the `if _logfile:` test). -/
def truthy : Value → Bool
  | Value.int n => n != 0
  | Value.str s => s.length > 0
  | Value.bool b => b
  | Value.none => false
  | Value.logger _ => true

/-- Model of Python repr on a `Value`. -/
def reprValue : Value → String
  | Value.int n => toString n
  | Value.str s => "\x27" ++ s ++ "\x27"
  | Value.bool b => if b then "True" else "False"
  | Value.none => "None"
  | Value.logger _ => "<Logger>"

/-- Model of Python repr on the positional-argument tuple. -/
def reprArgs : List Value → String
  | [] => "()"
  | [v] => "(" ++ reprValue v ++ ",)"
  | vs => "(" ++ String.intercalate ", " (vs.map reprValue) ++ ")"

/-- Model of Python repr on the keyword-argument dict (insertion order). -/
def reprKwargs (kw : List (String × Value)) : String :=
  "\x7b" ++
    String.intercalate ", "
      (kw.map (fun p => "\x27" ++ p.1 ++ "\x27: " ++ reprValue p.2)) ++
  "\x7d"

/-- Unit of work: the introspection attributes call_func reads, the clock
time its invocation consumes, and its input/output behaviour. -/
structure Func where
  /-- the name attribute when the callable has one (functools.partial
  objects do not), read by getattr with fallback -/
  name? : Option String
  /-- repr of type of func, the fallback display name -/
  typeRepr : String
  /-- the doc attribute; `Option.none` models a Python None docstring -/
  doc : Option String
  /-- what getattr of the module attribute with default empty string yields -/
  module : String
  /-- clock ticks consumed by one invocation of the callable -/
  duration : Nat
  /-- invocation behaviour: returns a value or raises an exception -/
  impl : List Value → List (String × Value) → Except PyExc Value

/-- Ambient process state. -/
structure Env where
  /-- result of socket.getfqdn -/
  fqdn : String
  /-- working directory used by os.path.abspath at import time -/
  cwd : String
  /-- whether opening this path for append and writing succeeds -/
  writable : String → Bool

/-- Side effects produced by one call_func invocation, per channel.  Order
within each channel is the order the source produces them. -/
structure Effects where
  /-- texts printed to stdout -/
  prints : List String
  /-- messages emitted at error level on the resolved logger -/
  logs : List String
  /-- (filename, text) pairs appended to files -/
  appends : List (String × String)
deriving DecidableEq, Repr

/-- No side effects. -/
def noEffects : Effects := { prints := [], logs := [], appends := [] }

/-- The info dict built by call_func.  Optional fields model dict keys that
are present only on one branch: `status` and `value` are absent in the
freshly built dict and filled in by the update calls of the source. -/
structure Info where
  func_name : String
  args : String
  kwargs : String
  status : Option String
  value : Option Value
  traceback_string : Option String
  error_type : Option String
  error_value : Option String
  /-- outer layer: key present; inner layer: the doc attribute value,
  which may itself be Python None -/
  func_doc : Option (Option String)
  func_module : Option String
  fqdn : Option String
  time_epoch : Option Nat
  time_string : Option String
deriving DecidableEq, Repr

/-- Outcome of one call_func invocation: the returned record, or the
exception that escaped call_func itself, plus the effects produced. -/
structure CallResult where
  result : Except PyExc Info
  effects : Effects

/-- Model of os.path.abspath: prefix the working directory. -/
def abspath (cwd p : String) : String := cwd ++ "/" ++ p

/-- LOGFILE constant of the module: abspath of log--bg-helper.log. -/
def LOGFILE (cwd : String) : String := abspath cwd "log--bg-helper.log"

/-- The module-level logger: a file handler on LOGFILE followed by a
stream handler (which has no baseFilename attribute). -/
def module_logger (cwd : String) : Logger :=
  { handlers := [ { baseFilename? := some (LOGFILE cwd) },
                  { baseFilename? := Option.none } ] }

/-- Source `get_logger_filenames`: the baseFilename of every handler that
has one, in handler order. -/
def get_logger_filenames (lg : Logger) : List String :=
  lg.handlers.filterMap (fun h => h.baseFilename?)

/-- Source `run`: run a shell command via subprocess.call with shell=True;
the ambient `shell` function gives the exit code. -/
def run (shell : String → Int) (cmd : String) : Int := shell cmd

/-- The functools.partial object `partial(run, func)` built by
SimpleBackgroundTask for a non-callable func: no name attribute, type repr
of a partial, the partial class docstring, module functools; invoking it
with no arguments runs the command, extra arguments raise a TypeError
(run takes a single positional argument, already bound). -/
def bound_run (shell : String → Int) (cmd : String) : Func :=
  { name? := Option.none
    typeRepr := "<class \x27functools.partial\x27>"
    doc := some "partial(func, *args, **keywords) - new function with partial application of the given arguments and keywords."
    module := "functools"
    duration := 0
    impl := fun args kwargs =>
      if args = [] ∧ kwargs = [] then
        Except.ok (Value.int (run shell cmd))
      else
        Except.error { etype := "<class \x27TypeError\x27>"
                       evalue := "TypeError()"
                       tbText := "TypeError: run() takes 1 positional argument" } }

/-- Lookup of a key in a kwargs dict (first occurrence; Python kwargs have
unique keys). -/
def lookupKw : List (String × Value) → String → Option Value
  | [], _ => Option.none
  | (k, v) :: rest, key => if k = key then some v else lookupKw rest key

/-- Model of dict.pop with a default: the value found (if any) and the
remaining kwargs with that key removed. -/
def popKw (kwargs : List (String × Value)) (key : String) :
    Option Value × List (String × Value) :=
  (lookupKw kwargs key, kwargs.filter (fun p => p.1 != key))

/-- The AttributeError raised when the value supplied for the logger
keyword is not a logger object: get_logger_filenames iterates the handlers
attribute, which such a value lacks. -/
def attr_error_exc : PyExc :=
  { etype := "<class \x27AttributeError\x27>"
    evalue := "AttributeError()"
    tbText := "AttributeError: object has no attribute handlers" }

/-- The OSError raised by open(path, mode a) when the path is not
writable. -/
def open_error (path : String) : PyExc :=
  { etype := "<class \x27OSError\x27>"
    evalue := "OSError()"
    tbText := "OSError: could not open " ++ path }

/-- The separator line printed when verbose: 70 equal signs. -/
def sepLine : String := String.mk (List.replicate 70 (Char.ofNat 61))

/-- The structured message the source formats for logger error. -/
def errLogLine (fname argsR kwargsR : String) : String :=
  "func=" ++ fname ++ " args=" ++ argsR ++ " kwargs=" ++ kwargsR

/-- The info dict as first built: display name, repr of args, repr of the
kwargs remaining after the logger and verbose pops; no other key yet. -/
def base_info (func : Func) (args : List Value)
    (kwargs : List (String × Value)) : Info :=
  { func_name := func.name?.getD func.typeRepr
    args := reprArgs args
    kwargs := reprKwargs kwargs
    status := Option.none
    value := Option.none
    traceback_string := Option.none
    error_type := Option.none
    error_value := Option.none
    func_doc := Option.none
    func_module := Option.none
    fqdn := Option.none
    time_epoch := Option.none
    time_string := Option.none }

/-- The record after the success-branch update: status ok and the returned
value. -/
def ok_info (func : Func) (args : List Value)
    (kwargs : List (String × Value)) (v : Value) : Info :=
  { base_info func args kwargs with status := some "ok", value := some v }

/-- Model of time.strftime with the source format applied to
time.localtime of the epoch: a deterministic rendering of the epoch. -/
def time_string_of (epoch : Nat) : String := "t-" ++ toString epoch

/-- The record after the error-branch update: status error and every error
field, with the epoch captured after the invocation consumed its time. -/
def error_info (env : Env) (t0 : Nat) (func : Func) (args : List Value)
    (kwargs : List (String × Value)) (e : PyExc) : Info :=
  { base_info func args kwargs with
    status := some "error"
    traceback_string := some e.tbText
    error_type := some e.etype
    error_value := some e.evalue
    func_doc := some func.doc
    func_module := some func.module
    fqdn := some env.fqdn
    time_epoch := some (t0 + func.duration)
    time_string := some (time_string_of (t0 + func.duration)) }

/-- Body of call_func after the logger and verbose keywords have been
resolved: compute the first logger filename (or none), build the info
dict, invoke the unit of work with the remaining kwargs, and on failure
emit the verbose prints, the structured logger line, and the unprotected
append of the traceback text to the logfile. -/
def call_func_resolved (env : Env) (t0 : Nat) (func : Func)
    (args : List Value) (kwargs : List (String × Value))
    (lg : Logger) (verbose : Bool) : CallResult :=
  let logfile : Option String := (get_logger_filenames lg).head?
  match func.impl args kwargs with
  | Except.ok v =>
      { result := Except.ok (ok_info func args kwargs v)
        effects := noEffects }
  | Except.error e =>
      let info := error_info env t0 func args kwargs e
      let fname := func.name?.getD func.typeRepr
      let prints := (if verbose then [sepLine] else []) ++
                    (if verbose then [e.tbText] else [])
      let logs := [errLogLine fname (reprArgs args) (reprKwargs kwargs)]
      match logfile with
      | some f =>
          if f.length > 0 then
            if env.writable f then
              { result := Except.ok info
                effects := { prints := prints, logs := logs
                             appends := [(f, e.tbText)] } }
            else
              { result := Except.error (open_error f)
                effects := { prints := prints, logs := logs, appends := [] } }
          else
            { result := Except.ok info
              effects := { prints := prints, logs := logs, appends := [] } }
      | Option.none =>
          { result := Except.ok info
            effects := { prints := prints, logs := logs, appends := [] } }

/-- Source `call_func`: pop the logger keyword (defaulting to the module
logger) and the verbose keyword (defaulting to True, read through Python
truthiness), then run the resolved body.  A non-logger value supplied for
the logger keyword makes get_logger_filenames raise an AttributeError that
escapes call_func before the unit of work is invoked. -/
def call_func (env : Env) (t0 : Nat) (func : Func) (args : List Value)
    (kwargs : List (String × Value)) : CallResult :=
  let p1 := popKw kwargs "logger"
  let p2 := popKw p1.2 "verbose"
  let verbose := match p2.1 with
    | some v => truthy v
    | Option.none => true
  match p1.1 with
  | some (Value.logger lg) => call_func_resolved env t0 func args p2.2 lg verbose
  | some _ => { result := Except.error attr_error_exc, effects := noEffects }
  | Option.none =>
      call_func_resolved env t0 func args p2.2 (module_logger env.cwd) verbose

/-- Either a callable object or a string, the two shapes accepted by the
SimpleBackgroundTask constructor (strings are not callable). -/
inductive FuncOrStr where
  | fn : Func → FuncOrStr
  | str : String → FuncOrStr

/-- The state a SimpleBackgroundTask holds after construction. -/
structure BgTask where
  _func : Func
  _args : List Value
  _kwargs : List (String × Value)

/-- Source `SimpleBackgroundTask.__init__` minus the thread start: when
func is not callable it becomes partial(run, func) and the supplied args
and kwargs are replaced by empty ones; otherwise all three are stored
unchanged.  The thread started at the end runs `BgTask.run` later, in a
daemon thread, without being awaited. -/
def SimpleBackgroundTask_init (shell : String → Int) (func : FuncOrStr)
    (args : List Value) (kwargs : List (String × Value)) : BgTask :=
  match func with
  | FuncOrStr.fn f => { _func := f, _args := args, _kwargs := kwargs }
  | FuncOrStr.str s =>
      { _func := bound_run shell s, _args := [], _kwargs := [] }

/-- Source `SimpleBackgroundTask.run`, the body executed by the detached
thread: call_func on the stored unit of work and arguments. -/
def BgTask.run (env : Env) (t0 : Nat) (t : BgTask) : CallResult :=
  call_func env t0 t._func t._args t._kwargs

/-! Derived notions used to state the claims. -/

/-- The kwargs actually forwarded to the unit of work: the supplied kwargs
after the logger and verbose pops. -/
def strip_internal_kwargs (kwargs : List (String × Value)) :
    List (String × Value) :=
  (popKw (popKw kwargs "logger").2 "verbose").2

/-- The logger call_func resolves: the logger keyword when one was passed,
otherwise the module logger. -/
def resolved_logger (env : Env) (kwargs : List (String × Value)) : Logger :=
  match lookupKw kwargs "logger" with
  | some (Value.logger lg) => lg
  | _ => module_logger env.cwd

/-- The verbose flag call_func resolves: truthiness of the verbose keyword
when one was passed, otherwise True. -/
def resolved_verbose (kwargs : List (String × Value)) : Bool :=
  match (popKw (popKw kwargs "logger").2 "verbose").1 with
  | some v => truthy v
  | Option.none => true

/-- The value supplied for the logger keyword, if any, is an actual logger
object (a non-logger value crashes call_func before the unit of work runs,
which is outside every claim). -/
def loggerArgOk (kwargs : List (String × Value)) : Bool :=
  match lookupKw kwargs "logger" with
  | some (Value.logger _) => true
  | some _ => false
  | Option.none => true

/-- The unprotected append step of call_func will succeed: the resolved
logger has no file handler, or its first filename is empty, or that file
is writable. -/
def append_ok (env : Env) (kwargs : List (String × Value)) : Bool :=
  match (get_logger_filenames (resolved_logger env kwargs)).head? with
  | some f => if f.length > 0 then env.writable f else true
  | Option.none => true

/-- All six non-timing error fields are present. -/
def error_fields_present (i : Info) : Bool :=
  i.traceback_string.isSome && i.error_type.isSome && i.error_value.isSome &&
  i.func_doc.isSome && i.func_module.isSome && i.fqdn.isSome

/-- The record with its two timing fields erased, for comparing records
from two invocations that differ only in when they ran. -/
def strip_timing (i : Info) : Info :=
  { i with time_epoch := Option.none, time_string := Option.none }

/-! Concrete sample inputs used by the witnesses. -/

/-- A sample environment where every path is writable. -/
def env0 : Env :=
  { fqdn := "host.example.org", cwd := "/home/user", writable := fun _ => true }

/-- A sample environment where no path is writable. -/
def env_ro : Env :=
  { fqdn := "host.example.org", cwd := "/home/user", writable := fun _ => false }

/-- The sample exception raised by `boom`. -/
def boomExc : PyExc :=
  { etype := "<class \x27ValueError\x27>"
    evalue := "ValueError(\x27bad\x27)"
    tbText := "Traceback: ValueError: bad" }

/-- A sample unit of work that always raises. -/
def boom : Func :=
  { name? := some "boom"
    typeRepr := "<class \x27function\x27>"
    doc := some "Always raise"
    module := "tests"
    duration := 2
    impl := fun _ _ => Except.error boomExc }

/-- A sample unit of work that adds one to its integer argument and raises
a TypeError otherwise. -/
def add_one : Func :=
  { name? := some "add_one"
    typeRepr := "<class \x27function\x27>"
    doc := some "Add one"
    module := "tests"
    duration := 1
    impl := fun args _ =>
      match args with
      | [Value.int n] => Except.ok (Value.int (n + 1))
      | _ => Except.error { etype := "<class \x27TypeError\x27>"
                            evalue := "TypeError()"
                            tbText := "TypeError: add_one" } }

/-- A sample logger with two file handlers and one stream handler. -/
def two_file_logger : Logger :=
  { handlers := [ { baseFilename? := some "/logs/a.log" },
                  { baseFilename? := some "/logs/b.log" },
                  { baseFilename? := Option.none } ] }

/-- A sample logger with no file handler. -/
def stream_only_logger : Logger :=
  { handlers := [ { baseFilename? := Option.none } ] }

/-! Structural lemmas about call_func, shared by the claim theorems. -/

/-- When the logger keyword, if present, carries an actual logger object,
call_func is the resolved body applied to the stripped kwargs, the
resolved logger and the resolved verbose flag. -/
theorem call_func_eq_resolved (env : Env) (t0 : Nat) (func : Func)
    (args : List Value) (kwargs : List (String × Value))
    (hl : loggerArgOk kwargs = true) :
    call_func env t0 func args kwargs =
      call_func_resolved env t0 func args (strip_internal_kwargs kwargs)
        (resolved_logger env kwargs) (resolved_verbose kwargs) := by
  unfold call_func resolved_logger resolved_verbose strip_internal_kwargs
  unfold loggerArgOk at hl
  rcases h : lookupKw kwargs "logger" with _ | v
  · simp [popKw, h]
  · rcases v with n | s | b | _ | lg
    · rw [h] at hl; simp at hl
    · rw [h] at hl; simp at hl
    · rw [h] at hl; simp at hl
    · rw [h] at hl; simp at hl
    · simp [popKw, h]

/-- Success branch of the resolved body: the ok record and no effects. -/
theorem call_func_resolved_ok (env : Env) (t0 : Nat) (func : Func)
    (args : List Value) (kwargs : List (String × Value)) (lg : Logger)
    (verbose : Bool) (v : Value)
    (ho : func.impl args kwargs = Except.ok v) :
    call_func_resolved env t0 func args kwargs lg verbose =
      { result := Except.ok (ok_info func args kwargs v)
        effects := noEffects } := by
  simp [call_func_resolved, ho]

/-- Error branch of the resolved body, when the append step succeeds (no
file handler, empty first filename, or writable file): the error record is
returned. -/
theorem call_func_resolved_error_result (env : Env) (t0 : Nat) (func : Func)
    (args : List Value) (kwargs : List (String × Value)) (lg : Logger)
    (verbose : Bool) (e : PyExc)
    (he : func.impl args kwargs = Except.error e)
    (hw : ∀ f rest, get_logger_filenames lg = f :: rest →
            f.length > 0 → env.writable f = true) :
    (call_func_resolved env t0 func args kwargs lg verbose).result =
      Except.ok (error_info env t0 func args kwargs e) := by
  simp only [call_func_resolved, he]
  rcases hg : get_logger_filenames lg with _ | ⟨f0, rest⟩
  · simp [hg]
  · simp only [hg, List.head?_cons]
    by_cases hlen : f0.length > 0
    · have hwr := hw f0 rest hg hlen
      simp [hlen, hwr]
    · simp [hlen]

/-- Error branch of the resolved body: prints and logger messages, which
happen before the append and are therefore the same whether or not the
append succeeds. -/
theorem call_func_resolved_error_effects (env : Env) (t0 : Nat)
    (func : Func) (args : List Value) (kwargs : List (String × Value))
    (lg : Logger) (verbose : Bool) (e : PyExc)
    (he : func.impl args kwargs = Except.error e) :
    (call_func_resolved env t0 func args kwargs lg verbose).effects.prints =
      (if verbose then [sepLine, e.tbText] else []) ∧
    (call_func_resolved env t0 func args kwargs lg verbose).effects.logs =
      [errLogLine (func.name?.getD func.typeRepr) (reprArgs args)
        (reprKwargs kwargs)] := by
  simp only [call_func_resolved, he]
  rcases hg : get_logger_filenames lg with _ | ⟨f0, rest⟩
  · cases verbose <;> simp [hg]
  · simp only [hg, List.head?_cons]
    by_cases hlen : f0.length > 0
    · by_cases hwr : env.writable f0 <;> cases verbose <;> simp [hlen, hwr]
    · cases verbose <;> simp [hlen]

/-- Successful append_ok means: whenever the resolved logger has a first
filename of positive length, that file is writable. -/
theorem append_ok_first (env : Env) (kwargs : List (String × Value))
    (hw : append_ok env kwargs = true) :
    ∀ f rest, get_logger_filenames (resolved_logger env kwargs) = f :: rest →
      f.length > 0 → env.writable f = true := by
  intro f rest hg hlen
  unfold append_ok at hw
  rw [hg] at hw
  simpa [List.head?_cons, hlen] using hw

/-- When the logger keyword carries a non-logger value, call_func raises
an AttributeError before invoking the unit of work and produces no
effects. -/
theorem call_func_bad_logger (env : Env) (t0 : Nat) (func : Func)
    (args : List Value) (kwargs : List (String × Value))
    (hl : loggerArgOk kwargs = false) :
    call_func env t0 func args kwargs =
      { result := Except.error attr_error_exc, effects := noEffects } := by
  unfold call_func
  unfold loggerArgOk at hl
  rcases h : lookupKw kwargs "logger" with _ | v
  · rw [h] at hl; simp at hl
  · rcases v with n | s | b | _ | lg
    · simp [popKw, h]
    · simp [popKw, h]
    · simp [popKw, h]
    · simp [popKw, h]
    · rw [h] at hl; simp at hl

/-- Any record returned by the resolved body is either the ok record for
the value the unit of work returned, or the error record for the
exception it raised. -/
theorem call_func_resolved_ok_shape (env : Env) (t0 : Nat) (func : Func)
    (args : List Value) (kwargs : List (String × Value)) (lg : Logger)
    (verbose : Bool) (info : Info)
    (h : (call_func_resolved env t0 func args kwargs lg verbose).result =
      Except.ok info) :
    (∃ v, func.impl args kwargs = Except.ok v ∧
        info = ok_info func args kwargs v) ∨
    (∃ e, func.impl args kwargs = Except.error e ∧
        info = error_info env t0 func args kwargs e) := by
  rcases hi : func.impl args kwargs with e | v
  · right
    refine ⟨e, rfl, ?_⟩
    simp only [call_func_resolved, hi] at h
    rcases hg : get_logger_filenames lg with _ | ⟨f0, rest⟩
    · rw [hg] at h; simp at h; exact h.symm
    · rw [hg] at h
      simp only [List.head?_cons] at h
      by_cases hlen : f0.length > 0
      · by_cases hwr : env.writable f0 = true
        · simp [hlen, hwr] at h; exact h.symm
        · simp [hlen, hwr] at h
      · simp [hlen] at h; exact h.symm
  · left
    refine ⟨v, rfl, ?_⟩
    simp only [call_func_resolved, hi] at h
    simp at h
    exact h.symm

/-- Any record returned by call_func is either the ok record or the error
record for the stripped kwargs. -/
theorem call_func_ok_shape (env : Env) (t0 : Nat) (func : Func)
    (args : List Value) (kwargs : List (String × Value)) (info : Info)
    (h : (call_func env t0 func args kwargs).result = Except.ok info) :
    (∃ v, func.impl args (strip_internal_kwargs kwargs) = Except.ok v ∧
        info = ok_info func args (strip_internal_kwargs kwargs) v) ∨
    (∃ e, func.impl args (strip_internal_kwargs kwargs) = Except.error e ∧
        info = error_info env t0 func args (strip_internal_kwargs kwargs) e)
    := by
  by_cases hl : loggerArgOk kwargs = true
  · rw [call_func_eq_resolved env t0 func args kwargs hl] at h
    exact call_func_resolved_ok_shape env t0 func args _ _ _ info h
  · rw [call_func_bad_logger env t0 func args kwargs
      (Bool.not_eq_true _ ▸ hl)] at h
    simp at h

/-- The resolved body at two entry times: same record up to the timing
fields, and the very same effects. -/
theorem call_func_resolved_time_indep (env : Env) (t0 t1 : Nat)
    (func : Func) (args : List Value) (kwargs : List (String × Value))
    (lg : Logger) (verbose : Bool) :
    Except.map strip_timing
        (call_func_resolved env t0 func args kwargs lg verbose).result =
      Except.map strip_timing
        (call_func_resolved env t1 func args kwargs lg verbose).result ∧
    (call_func_resolved env t0 func args kwargs lg verbose).effects =
      (call_func_resolved env t1 func args kwargs lg verbose).effects := by
  rcases hi : func.impl args kwargs with e | v
  · simp only [call_func_resolved, hi]
    rcases hg : get_logger_filenames lg with _ | ⟨f0, rest⟩
    · simp [strip_timing, error_info, base_info, Except.map]
    · simp only [List.head?_cons]
      by_cases hlen : f0.length > 0
      · by_cases hwr : env.writable f0 = true
        · simp [hlen, hwr, strip_timing, error_info, base_info, Except.map]
        · simp [hlen, hwr, strip_timing, error_info, base_info, Except.map]
      · simp [hlen, strip_timing, error_info, base_info, Except.map]
  · simp [call_func_resolved, hi]

/-! Claim theorems. -/

/-- C1 counterexample: a failing invocation run with the default module
logger in an environment where the module logfile is not writable is a
failing invocation of the unit of work for which call_func does not
return normally at all — the OSError from the unprotected append escapes
instead of the error record — refuting the unconditional claim. -/
theorem call_func_failure_record_cex :
    (call_func env_ro 0 boom [] []).result =
      Except.error (open_error (LOGFILE env_ro.cwd)) := rfl

/-- C1 amended: whenever the unit of work raises and the subsequent
unprotected append of the trace text to the resolved logger's first file
sink succeeds (no file sink, empty filename, or a writable file) — and
the logger keyword, if given, carries a logger — call_func converts the
failure into data: it returns normally a record with status error, every
error field populated (traceback text, error type, error value, doc,
origin module, host identity, time epoch, time label) and no value
field.  When the append fails the OSError of the open propagates in
place of the record (see the counterexample above and C4). -/
theorem call_func_failure_returns_error_record
    (env : Env) (t0 : Nat) (func : Func) (args : List Value)
    (kwargs : List (String × Value)) (e : PyExc)
    (hl : loggerArgOk kwargs = true)
    (he : func.impl args (strip_internal_kwargs kwargs) = Except.error e)
    (hw : append_ok env kwargs = true) :
    ∃ info : Info,
      (call_func env t0 func args kwargs).result = Except.ok info ∧
      info.status = some "error" ∧ info.value = Option.none ∧
      info.traceback_string.isSome = true ∧ info.error_type.isSome = true ∧
      info.error_value.isSome = true ∧ info.func_doc.isSome = true ∧
      info.func_module.isSome = true ∧ info.fqdn.isSome = true ∧
      info.time_epoch.isSome = true ∧ info.time_string.isSome = true := by
  refine ⟨error_info env t0 func args (strip_internal_kwargs kwargs) e,
    ?_, ?_, ?_, ?_, ?_, ?_, ?_, ?_, ?_, ?_, ?_⟩
  · rw [call_func_eq_resolved env t0 func args kwargs hl]
    exact call_func_resolved_error_result env t0 func args _ _ _ e he
      (append_ok_first env kwargs hw)
  all_goals simp [error_info, base_info]

/-- Witness for C1 at a concrete failing unit of work. -/
theorem call_func_failure_returns_error_record_witness :
    ∃ info : Info,
      (call_func env0 0 boom [] []).result = Except.ok info ∧
      info.status = some "error" ∧ info.value = Option.none ∧
      info.traceback_string.isSome = true ∧ info.error_type.isSome = true ∧
      info.error_value.isSome = true ∧ info.func_doc.isSome = true ∧
      info.func_module.isSome = true ∧ info.fqdn.isSome = true ∧
      info.time_epoch.isSome = true ∧ info.time_string.isSome = true :=
  call_func_failure_returns_error_record env0 0 boom [] [] boomExc
    rfl rfl rfl

/-- C2: whenever the unit of work returns normally with value v (given the
logger keyword, if present, is a logger), call_func returns the record
with status ok and value v, no error field and no timing field is
populated, and no printing, logging or file append happens. -/
theorem call_func_success_record_and_silent
    (env : Env) (t0 : Nat) (func : Func) (args : List Value)
    (kwargs : List (String × Value)) (v : Value)
    (hl : loggerArgOk kwargs = true)
    (ho : func.impl args (strip_internal_kwargs kwargs) = Except.ok v) :
    call_func env t0 func args kwargs =
      { result := Except.ok (ok_info func args (strip_internal_kwargs kwargs) v)
        effects := noEffects } ∧
    (ok_info func args (strip_internal_kwargs kwargs) v).status = some "ok" ∧
    (ok_info func args (strip_internal_kwargs kwargs) v).value = some v ∧
    error_fields_present (ok_info func args (strip_internal_kwargs kwargs) v)
      = false ∧
    (ok_info func args (strip_internal_kwargs kwargs) v).time_epoch
      = Option.none ∧
    (ok_info func args (strip_internal_kwargs kwargs) v).time_string
      = Option.none := by
  refine ⟨?_, ?_, ?_, ?_, ?_, ?_⟩
  · rw [call_func_eq_resolved env t0 func args kwargs hl]
    exact call_func_resolved_ok env t0 func args _ _ _ v ho
  all_goals simp [ok_info, base_info, error_fields_present]

/-- Witness for C2 at a concrete successful unit of work, with a verbose
keyword that call_func consumes. -/
theorem call_func_success_record_and_silent_witness :
    call_func env0 7 add_one [Value.int 4] [("verbose", Value.bool false)] =
      { result := Except.ok (ok_info add_one [Value.int 4]
          (strip_internal_kwargs [("verbose", Value.bool false)])
          (Value.int 5))
        effects := noEffects } ∧
    (ok_info add_one [Value.int 4]
        (strip_internal_kwargs [("verbose", Value.bool false)])
        (Value.int 5)).status = some "ok" ∧
    (ok_info add_one [Value.int 4]
        (strip_internal_kwargs [("verbose", Value.bool false)])
        (Value.int 5)).value = some (Value.int 5) ∧
    error_fields_present (ok_info add_one [Value.int 4]
        (strip_internal_kwargs [("verbose", Value.bool false)])
        (Value.int 5)) = false ∧
    (ok_info add_one [Value.int 4]
        (strip_internal_kwargs [("verbose", Value.bool false)])
        (Value.int 5)).time_epoch = Option.none ∧
    (ok_info add_one [Value.int 4]
        (strip_internal_kwargs [("verbose", Value.bool false)])
        (Value.int 5)).time_string = Option.none :=
  call_func_success_record_and_silent env0 7 add_one [Value.int 4]
    [("verbose", Value.bool false)] (Value.int 5) rfl rfl

/-- C3: every record call_func returns has exactly one of the value field
and the error-field group, never both and never neither, and its timing
fields are present exactly on the error branch, holding the clock value at
the moment the failure was observed (entry time plus the time the
invocation consumed), not the invocation start time. -/
theorem call_func_record_exclusive_and_timed (env : Env) (t0 : Nat)
    (func : Func) (args : List Value) (kwargs : List (String × Value))
    (info : Info)
    (h : (call_func env t0 func args kwargs).result = Except.ok info) :
    info.value.isSome = !(error_fields_present info) ∧
    (info.time_epoch.isSome = true ↔ info.status = some "error") ∧
    (info.time_string.isSome = true ↔ info.status = some "error") ∧
    (info.status = some "error" →
      info.time_epoch = some (t0 + func.duration)) := by
  rcases call_func_ok_shape env t0 func args kwargs info h with
    ⟨v, hi, rfl⟩ | ⟨e, hi, rfl⟩
  · simp [ok_info, base_info, error_fields_present]
  · simp [error_info, base_info, error_fields_present]

/-- Witness for C3 at a concrete failing invocation. -/
theorem call_func_record_exclusive_and_timed_witness :
    (error_info env0 3 boom [] [] boomExc).value.isSome =
      !(error_fields_present (error_info env0 3 boom [] [] boomExc)) ∧
    ((error_info env0 3 boom [] [] boomExc).time_epoch.isSome = true ↔
      (error_info env0 3 boom [] [] boomExc).status = some "error") ∧
    ((error_info env0 3 boom [] [] boomExc).time_string.isSome = true ↔
      (error_info env0 3 boom [] [] boomExc).status = some "error") ∧
    ((error_info env0 3 boom [] [] boomExc).status = some "error" →
      (error_info env0 3 boom [] [] boomExc).time_epoch =
        some (3 + boom.duration)) :=
  call_func_record_exclusive_and_timed env0 3 boom [] []
    (error_info env0 3 boom [] [] boomExc) rfl

/-- C8: two invocations of call_func on the same (pure, deterministically
modelled) unit of work with the same arguments and environment, entered at
two different clock times, produce records that agree on every field
except possibly the two timing fields, and produce the very same side
effects. -/
theorem call_func_deterministic_up_to_timing (env : Env) (func : Func)
    (args : List Value) (kwargs : List (String × Value)) (t0 t1 : Nat) :
    Except.map strip_timing (call_func env t0 func args kwargs).result =
      Except.map strip_timing (call_func env t1 func args kwargs).result ∧
    (call_func env t0 func args kwargs).effects =
      (call_func env t1 func args kwargs).effects := by
  by_cases hl : loggerArgOk kwargs = true
  · rw [call_func_eq_resolved env t0 func args kwargs hl,
      call_func_eq_resolved env t1 func args kwargs hl]
    exact call_func_resolved_time_indep env t0 t1 func args _ _ _
  · rw [call_func_bad_logger env t0 func args kwargs
        (Bool.not_eq_true _ ▸ hl),
      call_func_bad_logger env t1 func args kwargs
        (Bool.not_eq_true _ ▸ hl)]
    exact ⟨rfl, rfl⟩

/-- C4 counterexample: with a failing unit of work, a logger whose first
file handler points at an unwritable path, the OSError raised by the open
inside the except-block escapes call_func — the append is not best-effort
and the error record is replaced by the propagating OSError. -/
theorem call_func_logfile_failure_escapes_cex :
    (call_func env_ro 0 boom []
        [("logger", Value.logger two_file_logger)]).result =
      Except.error (open_error "/logs/a.log") := rfl

/-- C4 amended: on a failing invocation whose resolved logger has a file
sink that is not writable, the open failure propagates out of call_func
and replaces the returned error record; the structured logger line has
already been emitted before the append, and nothing is appended. -/
theorem call_func_logfile_failure_propagates (env : Env) (t0 : Nat)
    (func : Func) (args : List Value) (kwargs : List (String × Value))
    (e : PyExc) (f : String) (rest : List String)
    (hl : loggerArgOk kwargs = true)
    (he : func.impl args (strip_internal_kwargs kwargs) = Except.error e)
    (hg : get_logger_filenames (resolved_logger env kwargs) = f :: rest)
    (hlen : f.length > 0)
    (hwr : env.writable f = false) :
    (call_func env t0 func args kwargs).result =
      Except.error (open_error f) ∧
    (call_func env t0 func args kwargs).effects.logs =
      [errLogLine (func.name?.getD func.typeRepr) (reprArgs args)
        (reprKwargs (strip_internal_kwargs kwargs))] ∧
    (call_func env t0 func args kwargs).effects.appends = [] := by
  rw [call_func_eq_resolved env t0 func args kwargs hl]
  simp only [call_func_resolved, he, hg, List.head?_cons]
  simp [hlen, hwr]

/-- Witness for the amended C4 at a concrete unwritable logfile. -/
theorem call_func_logfile_failure_propagates_witness :
    (call_func env_ro 5 boom []
        [("logger", Value.logger two_file_logger)]).result =
      Except.error (open_error "/logs/a.log") ∧
    (call_func env_ro 5 boom []
        [("logger", Value.logger two_file_logger)]).effects.logs =
      [errLogLine (boom.name?.getD boom.typeRepr) (reprArgs [])
        (reprKwargs (strip_internal_kwargs
          [("logger", Value.logger two_file_logger)]))] ∧
    (call_func env_ro 5 boom []
        [("logger", Value.logger two_file_logger)]).effects.appends = [] :=
  call_func_logfile_failure_propagates env_ro 5 boom []
    [("logger", Value.logger two_file_logger)] boomExc "/logs/a.log"
    ["/logs/b.log"] rfl rfl rfl (by decide) rfl

/-- C5: constructing the launcher with a string resolves the unit of work
to partial of run applied to the string, discards the supplied positional
and keyword arguments, and the scheduled execution invokes that
zero-argument wrapper, which runs the string as a shell command. -/
theorem background_task_string_shortcut (shell : String → Int) (s : String)
    (args : List Value) (kwargs : List (String × Value)) :
    (SimpleBackgroundTask_init shell (FuncOrStr.str s) args kwargs)._args
      = [] ∧
    (SimpleBackgroundTask_init shell (FuncOrStr.str s) args kwargs)._kwargs
      = [] ∧
    (SimpleBackgroundTask_init shell (FuncOrStr.str s) args kwargs)._func
      = bound_run shell s ∧
    (SimpleBackgroundTask_init shell (FuncOrStr.str s) args
        kwargs)._func.impl [] [] = Except.ok (Value.int (run shell s)) ∧
    (∀ env t0,
      BgTask.run env t0
          (SimpleBackgroundTask_init shell (FuncOrStr.str s) args kwargs) =
        call_func env t0 (bound_run shell s) [] []) := by
  refine ⟨rfl, rfl, rfl, ?_, fun env t0 => rfl⟩
  simp [SimpleBackgroundTask_init, bound_run]

/-- C6: the launcher constructor with a callable stores the unit of work
and its arguments without ever invoking it — so a unit of work that raises
immediately cannot raise during construction, which is a total function of
the stored data — and the deferred body the detached daemon thread later
executes passes the unit of work through call_func, whose logger receives
the structured error line (emitted before the unprotected append, hence
regardless of logfile writability). -/
theorem background_task_raising_func_logs_error (shell : String → Int)
    (env : Env) (t0 : Nat) (f : Func) (args : List Value)
    (kwargs : List (String × Value)) (e : PyExc)
    (hl : loggerArgOk kwargs = true)
    (he : f.impl args (strip_internal_kwargs kwargs) = Except.error e) :
    SimpleBackgroundTask_init shell (FuncOrStr.fn f) args kwargs =
      { _func := f, _args := args, _kwargs := kwargs } ∧
    (BgTask.run env t0
        (SimpleBackgroundTask_init shell (FuncOrStr.fn f) args
          kwargs)).effects.logs =
      [errLogLine (f.name?.getD f.typeRepr) (reprArgs args)
        (reprKwargs (strip_internal_kwargs kwargs))] := by
  refine ⟨rfl, ?_⟩
  show (call_func env t0 f args kwargs).effects.logs = _
  rw [call_func_eq_resolved env t0 f args kwargs hl]
  exact (call_func_resolved_error_effects env t0 f args _ _ _ e he).2

/-- Witness for C6 at a concrete immediately-raising unit of work. -/
theorem background_task_raising_func_logs_error_witness :
    SimpleBackgroundTask_init (fun _ => 0) (FuncOrStr.fn boom) [] [] =
      { _func := boom, _args := [], _kwargs := [] } ∧
    (BgTask.run env0 11
        (SimpleBackgroundTask_init (fun _ => 0) (FuncOrStr.fn boom) []
          [])).effects.logs =
      [errLogLine (boom.name?.getD boom.typeRepr) (reprArgs [])
        (reprKwargs (strip_internal_kwargs []))] :=
  background_task_raising_func_logs_error (fun _ => 0) env0 11 boom [] []
    boomExc rfl rfl

/-- C7: on a failing invocation, when the resolved verbose flag is false
(a falsy verbose keyword) nothing is printed while the logger still
receives the structured error line; when the resolved verbose flag is true
(in particular when the verbose keyword is absent, its default) the
separator line and the full traceback text are printed. -/
theorem call_func_verbose_controls_prints (env : Env) (t0 : Nat)
    (func : Func) (args : List Value) (kwargs : List (String × Value))
    (e : PyExc)
    (hl : loggerArgOk kwargs = true)
    (he : func.impl args (strip_internal_kwargs kwargs) = Except.error e) :
    (resolved_verbose kwargs = false →
      (call_func env t0 func args kwargs).effects.prints = [] ∧
      (call_func env t0 func args kwargs).effects.logs =
        [errLogLine (func.name?.getD func.typeRepr) (reprArgs args)
          (reprKwargs (strip_internal_kwargs kwargs))]) ∧
    (resolved_verbose kwargs = true →
      (call_func env t0 func args kwargs).effects.prints =
        [sepLine, e.tbText] ∧
      (call_func env t0 func args kwargs).effects.logs =
        [errLogLine (func.name?.getD func.typeRepr) (reprArgs args)
          (reprKwargs (strip_internal_kwargs kwargs))]) := by
  rw [call_func_eq_resolved env t0 func args kwargs hl]
  obtain ⟨hp, hlg⟩ := call_func_resolved_error_effects env t0 func args
    (strip_internal_kwargs kwargs) (resolved_logger env kwargs)
    (resolved_verbose kwargs) e he
  constructor
  · intro hv
    rw [hv] at hp hlg ⊢
    exact ⟨by simpa using hp, hlg⟩
  · intro hv
    rw [hv] at hp hlg ⊢
    exact ⟨by simpa using hp, hlg⟩

/-- Witness for C7 at a falsy verbose keyword. -/
theorem call_func_verbose_controls_prints_witness :
    (resolved_verbose [("verbose", Value.bool false)] = false →
      (call_func env0 0 boom []
          [("verbose", Value.bool false)]).effects.prints = [] ∧
      (call_func env0 0 boom []
          [("verbose", Value.bool false)]).effects.logs =
        [errLogLine (boom.name?.getD boom.typeRepr) (reprArgs [])
          (reprKwargs (strip_internal_kwargs
            [("verbose", Value.bool false)]))]) ∧
    (resolved_verbose [("verbose", Value.bool false)] = true →
      (call_func env0 0 boom []
          [("verbose", Value.bool false)]).effects.prints =
        [sepLine, boomExc.tbText] ∧
      (call_func env0 0 boom []
          [("verbose", Value.bool false)]).effects.logs =
        [errLogLine (boom.name?.getD boom.typeRepr) (reprArgs [])
          (reprKwargs (strip_internal_kwargs
            [("verbose", Value.bool false)]))]) :=
  call_func_verbose_controls_prints env0 0 boom []
    [("verbose", Value.bool false)] boomExc rfl rfl

/-- C9: the logger and verbose keywords are consumed by call_func — the
kwargs forwarded to the unit of work contain neither key, call_func is the
resolved body applied to exactly those stripped kwargs, and the kwargs
rendering stored in any returned record is computed from the stripped
kwargs. -/
theorem call_func_internal_kwargs_consumed (env : Env) (t0 : Nat)
    (func : Func) (args : List Value) (kwargs : List (String × Value))
    (hl : loggerArgOk kwargs = true) :
    (∀ p, p ∈ strip_internal_kwargs kwargs →
      p.1 ≠ "logger" ∧ p.1 ≠ "verbose") ∧
    call_func env t0 func args kwargs =
      call_func_resolved env t0 func args (strip_internal_kwargs kwargs)
        (resolved_logger env kwargs) (resolved_verbose kwargs) ∧
    (∀ info, (call_func env t0 func args kwargs).result = Except.ok info →
      info.kwargs = reprKwargs (strip_internal_kwargs kwargs)) := by
  refine ⟨?_, call_func_eq_resolved env t0 func args kwargs hl, ?_⟩
  · intro p hp
    unfold strip_internal_kwargs popKw at hp
    simp only [List.mem_filter, bne_iff_ne, ne_eq] at hp
    exact ⟨hp.1.2, hp.2⟩
  · intro info h
    rcases call_func_ok_shape env t0 func args kwargs info h with
      ⟨v, hi, rfl⟩ | ⟨e, hi, rfl⟩
    · simp [ok_info, base_info]
    · simp [error_info, base_info]

/-- Witness for C9 at kwargs carrying both internal keys and a user key. -/
theorem call_func_internal_kwargs_consumed_witness :
    (∀ p, p ∈ strip_internal_kwargs
        [("logger", Value.logger stream_only_logger),
         ("verbose", Value.bool true), ("x", Value.int 1)] →
      p.1 ≠ "logger" ∧ p.1 ≠ "verbose") ∧
    call_func env0 1 add_one [Value.int 4]
        [("logger", Value.logger stream_only_logger),
         ("verbose", Value.bool true), ("x", Value.int 1)] =
      call_func_resolved env0 1 add_one [Value.int 4]
        (strip_internal_kwargs
          [("logger", Value.logger stream_only_logger),
           ("verbose", Value.bool true), ("x", Value.int 1)])
        (resolved_logger env0
          [("logger", Value.logger stream_only_logger),
           ("verbose", Value.bool true), ("x", Value.int 1)])
        (resolved_verbose
          [("logger", Value.logger stream_only_logger),
           ("verbose", Value.bool true), ("x", Value.int 1)]) ∧
    (∀ info, (call_func env0 1 add_one [Value.int 4]
        [("logger", Value.logger stream_only_logger),
         ("verbose", Value.bool true), ("x", Value.int 1)]).result =
        Except.ok info →
      info.kwargs = reprKwargs (strip_internal_kwargs
        [("logger", Value.logger stream_only_logger),
         ("verbose", Value.bool true), ("x", Value.int 1)])) :=
  call_func_internal_kwargs_consumed env0 1 add_one [Value.int 4]
    [("logger", Value.logger stream_only_logger),
     ("verbose", Value.bool true), ("x", Value.int 1)] rfl

/-- C10: on a failing invocation with an explicitly supplied logger, the
traceback text is appended only to the first filename reported by
get_logger_filenames (when that file is nonempty-named and writable), and
when the logger has no file handler nothing is appended at all and the
error record is still returned. -/
theorem call_func_appends_first_logfile_only (env : Env) (t0 : Nat)
    (func : Func) (args : List Value) (kwargs : List (String × Value))
    (lg : Logger) (e : PyExc)
    (hlg : lookupKw kwargs "logger" = some (Value.logger lg))
    (he : func.impl args (strip_internal_kwargs kwargs) = Except.error e) :
    (get_logger_filenames lg = [] →
      (call_func env t0 func args kwargs).effects.appends = [] ∧
      (call_func env t0 func args kwargs).result =
        Except.ok (error_info env t0 func args
          (strip_internal_kwargs kwargs) e)) ∧
    (∀ f rest, get_logger_filenames lg = f :: rest → f.length > 0 →
      env.writable f = true →
      (call_func env t0 func args kwargs).effects.appends =
        [(f, e.tbText)]) := by
  have hl : loggerArgOk kwargs = true := by
    unfold loggerArgOk; rw [hlg]
  have hrl : resolved_logger env kwargs = lg := by
    unfold resolved_logger; rw [hlg]
  rw [call_func_eq_resolved env t0 func args kwargs hl, hrl]
  constructor
  · intro hg
    simp only [call_func_resolved, he, hg]
    simp
  · intro f rest hg hlen hwr
    simp only [call_func_resolved, he, hg, List.head?_cons]
    simp [hlen, hwr]

/-- Witness for C10 at a logger with two file handlers: only the first
file receives the traceback text. -/
theorem call_func_appends_first_logfile_only_witness :
    (get_logger_filenames two_file_logger = [] →
      (call_func env0 2 boom []
          [("logger", Value.logger two_file_logger)]).effects.appends
        = [] ∧
      (call_func env0 2 boom []
          [("logger", Value.logger two_file_logger)]).result =
        Except.ok (error_info env0 2 boom []
          (strip_internal_kwargs
            [("logger", Value.logger two_file_logger)]) boomExc)) ∧
    (∀ f rest, get_logger_filenames two_file_logger = f :: rest →
      f.length > 0 → env0.writable f = true →
      (call_func env0 2 boom []
          [("logger", Value.logger two_file_logger)]).effects.appends =
        [(f, boomExc.tbText)]) :=
  call_func_appends_first_logfile_only env0 2 boom []
    [("logger", Value.logger two_file_logger)] two_file_logger boomExc
    rfl rfl

end BgHelper
